import Mathlib

/-!
Verification of the natural-language specification of the
`unsupervised-learning-tutorial` repository (instructional Jupyter notebooks
on scikit-learn data representation, autoencoders, PyTorch `nn`, CNNs,
TensorBoard and autograd) against a shallow embedding of the code the
notebooks contain.

Conventions:
* numpy / torch arrays are embedded as matrices over `ℚ` (either
  `Matrix (Fin m) (Fin n) ℚ` for the fixed-shape numpy warm-up code, or
  `List (List ℚ)` for the batch-of-rows tensors fed to `nn.Module`s);
* constructor keyword arguments that the notebooks pass to library calls
  (e.g. `DataLoader(..., num_workers=4, pin_memory=True)`) are embedded as
  records of the argument values that appear in the source;
* behaviour of the third-party autograd engine that the notebooks
  demonstrate (but do not implement) is modelled from the documentation and
  the recorded outputs embedded in the notebooks, and is marked
  `Modelled from the spec:` in the corresponding doc comments.
-/

/-! ### DataLoader constructions appearing in the notebooks -/

/-- Keyword arguments of one `torch.utils.data.DataLoader(...)` construction
as written in a notebook code cell.  The torch defaults for the two
parallelism-related options are `num_workers=0` and `pin_memory=False`. -/
structure DataLoaderArgs where
  dataset : String
  batch_size : Nat
  shuffle : Bool
  num_workers : Nat
  pin_memory : Bool
  deriving DecidableEq, Repr

/-- The four `DataLoader` constructions authored by the notebooks:
`train_loader` and `test_loader` in the autoencoder notebook
(`unnamed/part_001`), and `trainloader` / `testloader` in the TensorBoard
notebook (`unnamed/part_003`), with the argument values written in the
source. -/
def notebookDataLoaders : List DataLoaderArgs :=
  [ ⟨"train_dataset (MNIST), unnamed/part_001", 128, true, 4, true⟩,
    ⟨"test_dataset (MNIST), unnamed/part_001", 32, false, 4, false⟩,
    ⟨"trainset (FashionMNIST), unnamed/part_003", 4, true, 2, false⟩,
    ⟨"testset (FashionMNIST), unnamed/part_003", 4, false, 2, false⟩ ]

/-- The property asserted by claim C6: every notebook `DataLoader` leaves
`num_workers` and `pin_memory` at their library defaults. -/
def dataLoadersAtDefaultParallelism : Bool :=
  notebookDataLoaders.all (fun dl => dl.num_workers == 0 && dl.pin_memory == false)

/-! ### Classes and functions defined by the notebooks themselves -/

/-- Kind of a Python definition authored inside a notebook code cell. -/
inductive PyDefKind
  | classDef
  | funcDef
  deriving DecidableEq, Repr

/-- One `class` or `def` statement authored in a notebook code cell. -/
structure NotebookOwnDef where
  notebook : String
  name : String
  kind : PyDefKind
  deriving DecidableEq, Repr

/-- All `class` and `def` statements appearing in the notebooks' code cells:
the `nn.Module` subclasses `TwoLayerNet` and `DynamicNet`
(`dl_intro/3 Torch NN.ipynb`), the autoencoder `AE` (`unnamed/part_001`),
and the CNN `Net` plus four helper functions in the TensorBoard notebook
(`unnamed/part_003`). -/
def notebookOwnDefs : List NotebookOwnDef :=
  [ ⟨"dl_intro/3 Torch NN.ipynb", "TwoLayerNet", PyDefKind.classDef⟩,
    ⟨"dl_intro/3 Torch NN.ipynb", "DynamicNet", PyDefKind.classDef⟩,
    ⟨"unnamed/part_001", "AE", PyDefKind.classDef⟩,
    ⟨"unnamed/part_003", "matplotlib_imshow", PyDefKind.funcDef⟩,
    ⟨"unnamed/part_003", "Net", PyDefKind.classDef⟩,
    ⟨"unnamed/part_003", "select_n_random", PyDefKind.funcDef⟩,
    ⟨"unnamed/part_003", "images_to_probs", PyDefKind.funcDef⟩,
    ⟨"unnamed/part_003", "plot_classes_preds", PyDefKind.funcDef⟩ ]

/-! ### On-disk state left behind by notebook operations -/

/-- A file system modelled as the list of directory trees created so far. -/
def createDirIfMissing (path : String) (fs : List String) : List String :=
  if path ∈ fs then fs else fs ++ [path]

/-- Modelled from the spec: `SummaryWriter(log_dir)` from
`torch.utils.tensorboard` is third-party code; the TensorBoard notebook
documents that "this line alone creates a `runs/fashion_mnist_experiment_1`
folder", so its effect on the file system is to create the log directory. -/
def summaryWriterInit (log_dir : String) (fs : List String) : List String :=
  createDirIfMissing log_dir fs

/-- Modelled from the spec: the `torchvision.datasets` constructors
(`MNIST`, `FashionMNIST`) are third-party code; with `download=True` they
store the dataset files under `root` on disk, as demonstrated by the
notebooks. -/
def datasetDownload (root : String) (download : Bool) (fs : List String) :
    List String :=
  if download then createDirIfMissing root fs else fs

/-- Disk state left by executing the autoencoder notebook
(`unnamed/part_001`), which constructs both MNIST datasets with
`root="mnist_data", download=True`, starting from an empty file system. -/
def autoencoderNotebookDiskState : List String :=
  datasetDownload "mnist_data" true (datasetDownload "mnist_data" true [])

/-- Disk state left by executing the TensorBoard notebook
(`unnamed/part_003`), which constructs both FashionMNIST datasets with
`root='./data', download=True` and then evaluates
`SummaryWriter('runs/fashion_mnist_experiment_1')`, starting from an empty
file system. -/
def tensorboardNotebookDiskState : List String :=
  summaryWriterInit "runs/fashion_mnist_experiment_1"
    (datasetDownload "./data" true (datasetDownload "./data" true []))

/-! ### The autograd graph-buffer life cycle demonstrated in the notebooks -/

/-- Modelled from the spec: the state of a dynamically built autograd graph
is reduced to whether its intermediate buffers are still alive.  The torch
engine is third-party code; the autograd notebook documents that
`retain_graph=False` frees the buffers after the backward pass and records
the `RuntimeError` raised by a second `backward()`. -/
structure AutogradGraph where
  buffersAlive : Bool
  deriving DecidableEq, Repr

/-- A freshly (re)built computation graph: its buffers are alive. -/
def freshGraph : AutogradGraph := ⟨true⟩

/-- Modelled from the spec: `tensor.backward(retain_graph=...)`.  If the
graph buffers have already been freed the call raises the `RuntimeError`
recorded in the autograd notebook; otherwise it succeeds and keeps the
buffers exactly when `retain_graph` is true. -/
def backwardStep (retain_graph : Bool) (g : AutogradGraph) :
    Except String AutogradGraph :=
  if g.buffersAlive then Except.ok ⟨retain_graph⟩
  else
    Except.error "RuntimeError: Trying to backward through the graph a second time, but the buffers have already been freed. Specify retain_graph=True when calling backward the first time."

/-! ### `.grad` access on leaf and non-leaf tensors -/

/-- Modelled from the spec: the autograd bookkeeping of a single tensor
node, reduced to the fields the autograd notebook discusses: whether the
tensor is a graph leaf, whether it requires grad, whether `retain_grad()`
has been called on it, and its populated gradient (`none` = Python
`None`). -/
structure TensorNode where
  is_leaf : Bool
  requires_grad : Bool
  retains_grad : Bool
  grad : Option ℚ
  deriving DecidableEq, Repr

/-- Modelled from the spec: a backward pass accumulates an incoming
gradient into `.grad` only on nodes that are leaves with
`requires_grad=True`, or on nodes that retain grad; all other nodes are
left unpopulated. -/
def backwardPopulate (incoming : ℚ) (t : TensorNode) : TensorNode :=
  if (t.is_leaf && t.requires_grad) || t.retains_grad then
    { t with grad := some (t.grad.getD 0 + incoming) }
  else t

/-- Modelled from the spec: reading `tensor.grad` returns the stored
gradient and raises the `UserWarning` recorded in the autograd notebook
exactly when the tensor is a non-leaf requiring grad on which
`retain_grad()` has not been called.  The second component is the
warning flag. -/
def accessGrad (t : TensorNode) : Option ℚ × Bool :=
  (t.grad, !t.is_leaf && !t.retains_grad && t.requires_grad)

/-- `tensor.retain_grad()`: mark a node so backward populates its grad. -/
def retainGrad (t : TensorNode) : TensorNode := { t with retains_grad := true }

/-- The `out` tensor of the autograd notebook at the point where the
warning cell reads `out.grad`: a non-leaf requiring grad, not retaining
grad, with unpopulated gradient. -/
def outNode : TensorNode := ⟨false, true, false, none⟩

/-! ### Batch tensors as lists of rows -/

/-- A row vector of rational entries (one sample). -/
abbrev Vec := List ℚ

/-- A batch tensor of shape `[N, D]`: a list of `N` rows of length `D`. -/
abbrev Mat := List Vec

/-- Dot product of two rows (truncating at the shorter one). -/
def dotRow (xs ys : Vec) : ℚ := ((xs.zip ys).map (fun p => p.1 * p.2)).sum

/-- `m` has shape `[r, c]`. -/
def hasShape (m : Mat) (r c : Nat) : Prop :=
  m.length = r ∧ ∀ row ∈ m, row.length = c

/-- A `torch.nn.Linear` module: `weight` has one row of length
`in_features` per output feature, `bias` has length `out_features`. -/
structure LinearLayer where
  weight : Mat
  bias : Vec
  deriving Repr

/-- `nn.Linear` applied to a single sample: `W x + b`. -/
def LinearLayer.applyRow (l : LinearLayer) (x : Vec) : Vec :=
  (l.weight.zip l.bias).map (fun wb => dotRow wb.1 x + wb.2)

/-- `nn.Linear` applied to a batch `[N, in_features]`, one row at a time. -/
def LinearLayer.applyBatch (l : LinearLayer) (xs : Mat) : Mat :=
  xs.map l.applyRow

/-- The layer's weight is an `outF × inF` matrix and its bias has length
`outF`, as built by `nn.Linear(in_features=inF, out_features=outF)`. -/
def LinearLayer.WF (l : LinearLayer) (inF outF : Nat) : Prop :=
  l.weight.length = outF ∧ (∀ r ∈ l.weight, r.length = inF) ∧
    l.bias.length = outF

/-- `F.relu` on one row. -/
def reluRow (v : Vec) : Vec := v.map (fun a => max a 0)

/-- `F.relu` on a batch. -/
def reluBatch (m : Mat) : Mat := m.map reluRow

theorem LinearLayer.applyBatch_shape (l : LinearLayer) (inF outF : Nat)
    (hl : l.WF inF outF) (xs : Mat) (N : Nat) (hxs : xs.length = N) :
    hasShape (l.applyBatch xs) N outF := by
  refine ⟨by simpa [LinearLayer.applyBatch] using hxs, ?_⟩
  intro row hrow
  simp only [LinearLayer.applyBatch, List.mem_map] at hrow
  obtain ⟨x, -, rfl⟩ := hrow
  simp [LinearLayer.applyRow, List.length_zip, hl.1, hl.2.2]

theorem reluBatch_shape (m : Mat) (r c : Nat) (hm : hasShape m r c) :
    hasShape (reluBatch m) r c := by
  refine ⟨by simpa [reluBatch] using hm.1, ?_⟩
  intro row hrow
  simp only [reluBatch, List.mem_map] at hrow
  obtain ⟨x, hx, rfl⟩ := hrow
  simpa [reluRow] using hm.2 x hx

/-! ### The `AE` autoencoder module (`unnamed/part_001`) -/

/-- The `AE(nn.Module)` class of the autoencoder notebook: four `nn.Linear`
layers, built by `AE.__init__(input_shape)` as
`Linear(input_shape, 128)`, `Linear(128, 128)`, `Linear(128, 128)` and
`Linear(128, input_shape)`. -/
structure AE where
  encoder_hidden_layer : LinearLayer
  encoder_output_layer : LinearLayer
  decoder_hidden_layer : LinearLayer
  decoder_output_layer : LinearLayer
  deriving Repr

/-- `AE.forward(features)` as written in the notebook: relu after every one
of the four layers, returning the reconstruction. -/
def AE.forward (m : AE) (features : Mat) : Mat :=
  let encoder := reluBatch (m.encoder_hidden_layer.applyBatch features)
  let z := reluBatch (m.encoder_output_layer.applyBatch encoder)
  let decoder := reluBatch (m.decoder_hidden_layer.applyBatch z)
  reluBatch (m.decoder_output_layer.applyBatch decoder)

/-- The layer dimensions produced by `AE.__init__(input_shape)`. -/
def AE.WF (m : AE) (input_shape : Nat) : Prop :=
  m.encoder_hidden_layer.WF input_shape 128 ∧
    m.encoder_output_layer.WF 128 128 ∧
    m.decoder_hidden_layer.WF 128 128 ∧
    m.decoder_output_layer.WF 128 input_shape

/-! ### The `DynamicNet` module (`dl_intro/3 Torch NN.ipynb`) -/

/-- The `DynamicNet(torch.nn.Module)` class: three `nn.Linear` layers
`Linear(D_in, H)`, `Linear(H, H)` and `Linear(H, D_out)`. -/
structure DynamicNet where
  input_linear : LinearLayer
  middle_linear : LinearLayer
  output_linear : LinearLayer
  deriving Repr

/-- The loop `for _ in range(hidden_layers): h_relu =
torch.relu(self.middle_linear(h_relu))` of `DynamicNet.forward`: the shared
`middle_linear` layer followed by relu, applied `hidden_layers` times. -/
def DynamicNet.middlePass (m : DynamicNet) : Nat → Mat → Mat
  | 0, h => h
  | k + 1, h => reluBatch (m.middle_linear.applyBatch (m.middlePass k h))

/-- `DynamicNet.forward(x)`, with the value drawn by
`random.randint(0, 3)` made an explicit argument `hidden_layers`: relu of
the input layer, then the shared `middle_linear` layer (with relu) applied
`hidden_layers` times, then the output layer (no relu). -/
def DynamicNet.forward (m : DynamicNet) (hidden_layers : Nat) (x : Mat) :
    Mat :=
  let h_relu := reluBatch (m.input_linear.applyBatch x)
  m.output_linear.applyBatch (m.middlePass hidden_layers h_relu)

/-- The layer dimensions produced by `DynamicNet.__init__(D_in, H, D_out)`.
`dIn`, `hDim`, `dOut` stand for the Python `D_in`, `H`, `D_out`. -/
def DynamicNet.WF (m : DynamicNet) (dIn hDim dOut : Nat) : Prop :=
  m.input_linear.WF dIn hDim ∧ m.middle_linear.WF hDim hDim ∧
    m.output_linear.WF hDim dOut

/-! ### `select_n_random` (`unnamed/part_003`) -/

/-- Fancy indexing `xs[idx]`: pick the entries of `xs` at the positions
listed in `idx` (positions out of range contribute nothing; for the
permutations produced by `torch.randperm(len(xs))` every position is in
range). -/
def gatherIdx {α : Type} (xs : List α) (idx : List Nat) : List α :=
  idx.filterMap (fun i => xs[i]?)

/-- `select_n_random(data, labels, n)` with the permutation produced by
`torch.randperm(len(data))` made an explicit argument `perm`: returns
`data[perm][:n], labels[perm][:n]`.  Its `assert len(data) == len(labels)`
precondition becomes a hypothesis of the theorems below.  The notebook
default is `n=100`. -/
def select_n_random {α β : Type} (perm : List Nat) (data : List α)
    (labels : List β) (n : Nat) : List α × List β :=
  (List.take n (gatherIdx data perm), List.take n (gatherIdx labels perm))

theorem gatherIdx_length {α : Type} (xs : List α) (idx : List Nat)
    (h : ∀ i ∈ idx, i < xs.length) : (gatherIdx xs idx).length = idx.length := by
  induction idx with
  | nil => rfl
  | cons i rest ih =>
    have hi : i < xs.length := h i (List.mem_cons_self i rest)
    obtain ⟨a, ha⟩ : ∃ a, xs[i]? = some a :=
      ⟨xs[i], List.getElem?_eq_getElem hi⟩
    simp only [gatherIdx, List.filterMap_cons, ha]
    simpa [gatherIdx] using ih (fun j hj => h j (List.mem_cons_of_mem i hj))

theorem gatherIdx_getElem? {α : Type} (xs : List α) (idx : List Nat)
    (h : ∀ i ∈ idx, i < xs.length) (k : Nat) :
    (gatherIdx xs idx)[k]? = idx[k]?.bind (fun i => xs[i]?) := by
  induction idx generalizing k with
  | nil => simp [gatherIdx]
  | cons i rest ih =>
    have hi : i < xs.length := h i (List.mem_cons_self i rest)
    obtain ⟨a, ha⟩ : ∃ a, xs[i]? = some a :=
      ⟨xs[i], List.getElem?_eq_getElem hi⟩
    have hrest : ∀ j ∈ rest, j < xs.length :=
      fun j hj => h j (List.mem_cons_of_mem i hj)
    cases k with
    | zero => simp [gatherIdx, List.filterMap_cons, ha]
    | succ k =>
      simp only [gatherIdx, List.filterMap_cons, ha, List.getElem?_cons_succ]
      simpa [gatherIdx] using ih hrest k

/-! ### `sparsity_ratio` (`unnamed/part_000`) -/

/-- A two-dimensional numpy array: its shape `(nrows, ncols)` together with
its rows of entries (rectangularity is the `WF` predicate below). -/
structure NDArray2 where
  nrows : Nat
  ncols : Nat
  entries : List (List ℚ)
  deriving Repr

/-- The shape of `X` describes its entries. -/
def NDArray2.WF (X : NDArray2) : Prop :=
  X.entries.length = X.nrows ∧ ∀ row ∈ X.entries, row.length = X.ncols

/-- `np.count_nonzero(X)`: the number of nonzero entries of `X`. -/
def count_nonzero (X : NDArray2) : Nat :=
  (X.entries.map (fun row => row.countP (fun a => decide (a ≠ 0)))).sum

/-- `sparsity_ratio(X)` from the data-representation notebook:
`1.0 - np.count_nonzero(X) / float(X.shape[0] * X.shape[1])`, where a zero
denominator makes Python raise `ZeroDivisionError` (floats are modelled as
exact rationals). -/
def sparsityRatioFn (X : NDArray2) : Except String ℚ :=
  if X.nrows * X.ncols = 0 then
    Except.error "ZeroDivisionError: float division by zero"
  else
    Except.ok (1 - (count_nonzero X : ℚ) / ((X.nrows * X.ncols : ℕ) : ℚ))

/-! ### The numpy warm-up training loop (`dl_intro/2 Torch AutoGrad.ipynb`) -/

/-- Fixed-shape numpy arrays of the warm-up loop, as rational matrices. -/
abbrev NMat (m n : ℕ) := Matrix (Fin m) (Fin n) ℚ

/-- `np.maximum(h, 0)`: elementwise relu. -/
def matRelu {m n : ℕ} (A : NMat m n) : NMat m n := fun i j => max (A i j) 0

/-- `grad_h = grad_h_relu.copy(); grad_h[h < 0] = 0`: zero the entries of
`g` at the positions where `h` is negative. -/
def maskNonneg {m n : ℕ} (h g : NMat m n) : NMat m n :=
  fun i j => if h i j < 0 then 0 else g i j

/-- One iteration of the numpy warm-up training loop of the autograd
notebook, acting on the weights `(w1, w2)`: the forward pass
(`h = x.dot(w1)`, `h_relu = np.maximum(h, 0)`, `y_pred = h_relu.dot(w2)`),
the manual backward pass computing `grad_w1` and `grad_w2`, and the manual
gradient-descent updates `w1 -= learning_rate * grad_w1`,
`w2 -= learning_rate * grad_w2`.  (The torch.Tensor warm-up loop in the
same notebook is the same computation with `clamp(min=0)` for the relu.) -/
def numpyWarmupStep {N Din H Dout : ℕ} (learning_rate : ℚ) (x : NMat N Din)
    (y : NMat N Dout) (w1 : NMat Din H) (w2 : NMat H Dout) :
    NMat Din H × NMat H Dout :=
  let h := x * w1
  let h_relu := matRelu h
  let y_pred := h_relu * w2
  let grad_y_pred := (2 : ℚ) • (y_pred - y)
  let grad_w2 := Matrix.transpose h_relu * grad_y_pred
  let grad_h_relu := grad_y_pred * Matrix.transpose w2
  let grad_h := maskNonneg h grad_h_relu
  let grad_w1 := Matrix.transpose x * grad_h
  (w1 - learning_rate • grad_w1, w2 - learning_rate • grad_w2)

/-- Sum of all entries of a matrix. -/
def sumAll {m n : ℕ} (A : NMat m n) : ℚ := ∑ i, ∑ j, A i j

/-- `np.square`: elementwise square. -/
def matSquare {m n : ℕ} (A : NMat m n) : NMat m n := fun i j => (A i j) ^ 2

/-- The loss of the warm-up loop, `np.square(y_pred - y).sum()`, viewed as
a function of `w2` (with `y_pred` recomputed by the forward pass). -/
def numpyWarmupLoss {N Din H Dout : ℕ} (x : NMat N Din) (y : NMat N Dout)
    (w1 : NMat Din H) (w2 : NMat H Dout) : ℚ :=
  sumAll (matSquare (matRelu (x * w1) * w2 - y))

/-- The manual gradient `grad_w2 = h_relu.T.dot(2.0 * (y_pred - y))`
computed by the notebook's backward pass, as a standalone function of the
inputs and weights. -/
def numpyGradW2 {N Din H Dout : ℕ} (x : NMat N Din) (y : NMat N Dout)
    (w1 : NMat Din H) (w2 : NMat H Dout) : NMat H Dout :=
  Matrix.transpose (matRelu (x * w1)) * ((2 : ℚ) • (matRelu (x * w1) * w2 - y))

/-- Frobenius inner product `∑ᵢⱼ Aᵢⱼ Bᵢⱼ` on matrices. -/
def frobInner {m n : ℕ} (A B : NMat m n) : ℚ := ∑ i, ∑ j, A i j * B i j

theorem frobInner_eq_trace {m n : ℕ} (A B : NMat m n) :
    frobInner A B = Matrix.trace (Matrix.transpose A * B) := by
  simp only [frobInner, Matrix.trace, Matrix.diag, Matrix.mul_apply,
    Matrix.transpose_apply]
  exact Finset.sum_comm

theorem sumAll_matSquare {m n : ℕ} (A : NMat m n) :
    sumAll (matSquare A) = frobInner A A := by
  simp [sumAll, matSquare, frobInner, sq]

/-! ### Claims C2, C3, C4, C5, C6 -/

/-- Claim C2 (counterexample): the claim that the notebooks define no
classes or functions of their own is false: the autoencoder notebook
defines the `nn.Module` subclass `AE`, so the list of notebook-authored
definitions is not empty. -/
theorem notebookOwnDefs_nonempty :
    notebookOwnDefs ≠ [] ∧
      (⟨"unnamed/part_001", "AE", PyDefKind.classDef⟩ : NotebookOwnDef) ∈
        notebookOwnDefs := by
  decide

/-- Claim C2 (amended): most operations shown are direct library calls,
but the notebooks do define classes and functions of their own that wrap
and compose library operations: the `nn.Module` subclasses `TwoLayerNet`,
`DynamicNet`, `AE` and `Net`, and the helper functions
`matplotlib_imshow`, `select_n_random`, `images_to_probs` and
`plot_classes_preds`. -/
theorem notebooks_define_own_classes_and_functions :
    (notebookOwnDefs.filter
          (fun d => d.kind == PyDefKind.classDef)).map (fun d => d.name)
        = ["TwoLayerNet", "DynamicNet", "AE", "Net"] ∧
      (notebookOwnDefs.filter
          (fun d => d.kind == PyDefKind.funcDef)).map (fun d => d.name)
        = ["matplotlib_imshow", "select_n_random", "images_to_probs",
            "plot_classes_preds"] := by
  decide

/-- Claim C3: calling `.backward()` a second time after a first
`.backward()` without `retain_graph=True` raises the recorded
`RuntimeError` (the buffers were freed by the first call), whereas after
rebuilding the graph and calling backward with `retain_graph=True` a
further `.backward()` succeeds. -/
theorem backward_twice_semantics :
    backwardStep false freshGraph = Except.ok ⟨false⟩ ∧
      backwardStep false ⟨false⟩ =
        Except.error "RuntimeError: Trying to backward through the graph a second time, but the buffers have already been freed. Specify retain_graph=True when calling backward the first time." ∧
      backwardStep true freshGraph = Except.ok ⟨true⟩ ∧
      backwardStep false ⟨true⟩ = Except.ok ⟨false⟩ :=
  ⟨rfl, rfl, rfl, rfl⟩

/-- Claim C4: accessing `.grad` of a non-leaf tensor (requiring grad, not
retaining grad, unpopulated) after a backward pass yields `None` together
with a warning, because backward populates only leaf tensors with
`requires_grad=True`; after calling `retain_grad()` on the tensor, a
backward pass populates its `.grad`. -/
theorem nonleaf_grad_semantics (t : TensorNode) (g : ℚ)
    (hleaf : t.is_leaf = false) (hreq : t.requires_grad = true)
    (hret : t.retains_grad = false) (hgrad : t.grad = none) :
    accessGrad (backwardPopulate g t) = (none, true) ∧
      (backwardPopulate g (retainGrad t)).grad = some g := by
  simp [accessGrad, backwardPopulate, retainGrad, hleaf, hreq, hret, hgrad]

/-- Witness for `nonleaf_grad_semantics`, at the notebook's `out` tensor
and incoming gradient `2`. -/
theorem nonleaf_grad_semantics_witness :
    accessGrad (backwardPopulate 2 outNode) = (none, true) ∧
      (backwardPopulate 2 (retainGrad outNode)).grad = some 2 :=
  nonleaf_grad_semantics outNode 2 rfl rfl rfl rfl

/-- Claim C5 (counterexample): the claim that no notebook operation leaves
persistent on-disk state behind is false: both the TensorBoard notebook and
the autoencoder notebook leave a non-empty set of created directories.  -/
theorem notebook_disk_state_nonempty :
    tensorboardNotebookDiskState ≠ [] ∧ autoencoderNotebookDiskState ≠ [] := by
  decide

/-- Claim C5 (amended): the in-memory data objects are transient, but the
notebooks do leave persistent on-disk state: the autoencoder notebook
downloads MNIST into `mnist_data`, and the TensorBoard notebook downloads
FashionMNIST into `./data` and creates the
`runs/fashion_mnist_experiment_1` log directory. -/
theorem notebooks_leave_disk_state :
    autoencoderNotebookDiskState = ["mnist_data"] ∧
      tensorboardNotebookDiskState =
        ["./data", "runs/fashion_mnist_experiment_1"] := by
  decide

/-- Claim C6 (counterexample): the claim that every notebook `DataLoader`
leaves `num_workers` and `pin_memory` at their defaults (`0`, `False`) is
false: the four loaders set `num_workers` to `4, 4, 2, 2`, and the first
also sets `pin_memory=True`. -/
theorem dataloaders_not_default_parallelism :
    dataLoadersAtDefaultParallelism = false ∧
      notebookDataLoaders.map (fun dl => dl.num_workers) = [4, 4, 2, 2] := by
  decide

/-- Claim C6 (amended): every `DataLoader` constructed in the notebooks
configures parallelism beyond the library defaults: each sets a positive
`num_workers` (4 in the autoencoder notebook, 2 in the TensorBoard
notebook), and exactly one (the autoencoder train loader) additionally sets
`pin_memory=True`. -/
theorem dataloaders_configure_parallelism :
    (notebookDataLoaders.all (fun dl => decide (0 < dl.num_workers))) = true ∧
      notebookDataLoaders.countP (fun dl => dl.pin_memory) = 1 ∧
      notebookDataLoaders.map (fun dl => dl.num_workers) = [4, 4, 2, 2] := by
  decide

/-! ### Claim C10 -/

theorem sum_countP_le (p : ℚ → Bool) (c : Nat) (l : List (List ℚ))
    (h : ∀ row ∈ l, row.length = c) :
    (l.map (fun row => row.countP p)).sum ≤ l.length * c := by
  induction l with
  | nil => simp
  | cons row rest ih =>
    have h1 : row.countP p ≤ c :=
      (h row (List.mem_cons_self row rest)) ▸ List.countP_le_length p
    have h2 := ih (fun r hr => h r (List.mem_cons_of_mem row hr))
    simp only [List.map_cons, List.sum_cons, List.length_cons]
    calc row.countP p + (rest.map (fun row => row.countP p)).sum
        ≤ c + rest.length * c := Nat.add_le_add h1 h2
      _ = (rest.length + 1) * c := by ring

theorem count_nonzero_le (X : NDArray2) (hwf : X.WF) :
    count_nonzero X ≤ X.nrows * X.ncols := by
  have h := sum_countP_le (fun a => decide (a ≠ 0)) X.ncols X.entries hwf.2
  simpa [count_nonzero, hwf.1] using h

theorem count_nonzero_eq_zero_iff (X : NDArray2) :
    count_nonzero X = 0 ↔ ∀ row ∈ X.entries, ∀ a ∈ row, a = 0 := by
  simp [count_nonzero, List.sum_eq_zero_iff, List.countP_eq_zero]

/-- Claim C10: `sparsity_ratio(X)` returns
`1 - count_nonzero(X) / (X.shape[0] * X.shape[1])`, which for a
two-dimensional array of positive size is in `[0, 1]`, equal to `1` exactly
when `X` is all zeros; when `X.shape[0] * X.shape[1] = 0` the call fails
with a `ZeroDivisionError`. -/
theorem sparsity_ratio_spec (X : NDArray2) (hwf : X.WF) :
    (0 < X.nrows * X.ncols →
      ∃ q, sparsityRatioFn X = Except.ok q ∧ 0 ≤ q ∧ q ≤ 1 ∧
        (q = 1 ↔ ∀ row ∈ X.entries, ∀ a ∈ row, a = 0)) ∧
      (X.nrows * X.ncols = 0 →
        sparsityRatioFn X =
          Except.error "ZeroDivisionError: float division by zero") := by
  constructor
  · intro hpos
    have hne : X.nrows * X.ncols ≠ 0 := hpos.ne'
    refine ⟨1 - (count_nonzero X : ℚ) / ((X.nrows * X.ncols : ℕ) : ℚ),
      ?_, ?_, ?_, ?_⟩
    · simp [sparsityRatioFn, hne]
    · have hs : (0 : ℚ) < ((X.nrows * X.ncols : ℕ) : ℚ) := by
        exact_mod_cast hpos
      have hc : (count_nonzero X : ℚ) ≤ ((X.nrows * X.ncols : ℕ) : ℚ) := by
        exact_mod_cast count_nonzero_le X hwf
      have hd : (count_nonzero X : ℚ) / ((X.nrows * X.ncols : ℕ) : ℚ) ≤ 1 :=
        (div_le_one hs).mpr hc
      linarith
    · have hs : (0 : ℚ) ≤ ((X.nrows * X.ncols : ℕ) : ℚ) := by positivity
      have hd : (0 : ℚ) ≤ (count_nonzero X : ℚ) / ((X.nrows * X.ncols : ℕ) : ℚ) :=
        div_nonneg (by positivity) hs
      linarith
    · have hs : ((X.nrows * X.ncols : ℕ) : ℚ) ≠ 0 := by
        exact_mod_cast hne
      rw [sub_eq_self, div_eq_zero_iff]
      constructor
      · rintro (hc | hzero)
        · exact (count_nonzero_eq_zero_iff X).mp (by exact_mod_cast hc)
        · exact absurd hzero hs
      · intro hall
        left
        exact_mod_cast (count_nonzero_eq_zero_iff X).mpr hall
  · intro h0
    simp [sparsityRatioFn, h0]

/-- A concrete 1×2 array `[[0, 3]]` used as witness input. -/
def sampleArray : NDArray2 := ⟨1, 2, [[0, 3]]⟩

/-- Witness for `sparsity_ratio_spec`, at the concrete array `[[0, 3]]` of
positive size. -/
theorem sparsity_ratio_spec_witness :
    ∃ q, sparsityRatioFn sampleArray = Except.ok q ∧ 0 ≤ q ∧ q ≤ 1 ∧
      (q = 1 ↔ ∀ row ∈ sampleArray.entries, ∀ a ∈ row, a = 0) :=
  (sparsity_ratio_spec sampleArray ⟨rfl, by decide⟩).1 (by decide)

/-! ### Claim C9 -/

/-- Claim C9: under the asserted precondition `len(data) == len(labels)`,
`select_n_random` applies one shared random permutation to both sequences:
both returned sequences have length `min n len(data)`, and the returned
data item and label at every position `i` occur at a common position `j`
of the input sequences. -/
theorem select_n_random_preserves_pairing {α β : Type} (perm : List Nat)
    (data : List α) (labels : List β) (n : Nat)
    (hlen : data.length = labels.length)
    (hperm : perm.Perm (List.range data.length)) :
    (select_n_random perm data labels n).1.length = min n data.length ∧
      (select_n_random perm data labels n).2.length = min n data.length ∧
      ∀ i < (select_n_random perm data labels n).1.length,
        ∃ j < data.length,
          (select_n_random perm data labels n).1[i]? = data[j]? ∧
            (select_n_random perm data labels n).2[i]? = labels[j]? := by
  have hmem : ∀ i ∈ perm, i < data.length := fun i hi =>
    List.mem_range.mp (hperm.mem_iff.mp hi)
  have hmem' : ∀ i ∈ perm, i < labels.length := fun i hi =>
    hlen ▸ hmem i hi
  have hplen : perm.length = data.length := by
    simpa using hperm.length_eq
  have hg1 : (gatherIdx data perm).length = perm.length :=
    gatherIdx_length data perm hmem
  have hg2 : (gatherIdx labels perm).length = perm.length :=
    gatherIdx_length labels perm hmem'
  have hlen1 : (select_n_random perm data labels n).1.length
      = min n data.length := by
    simp [select_n_random, List.length_take, hg1, hplen]
  have hlen2 : (select_n_random perm data labels n).2.length
      = min n data.length := by
    simp [select_n_random, List.length_take, hg2, hplen]
  refine ⟨hlen1, hlen2, ?_⟩
  intro i hi
  rw [hlen1] at hi
  have hin : i < n := lt_of_lt_of_le hi (min_le_left n data.length)
  have hid : i < data.length := lt_of_lt_of_le hi (min_le_right n data.length)
  have hip : i < perm.length := hplen ▸ hid
  refine ⟨perm[i], hmem perm[i] (List.getElem_mem hip), ?_, ?_⟩
  · show (List.take n (gatherIdx data perm))[i]? = data[perm[i]]?
    rw [List.getElem?_take_of_lt hin, gatherIdx_getElem? data perm hmem i,
      List.getElem?_eq_getElem hip]
    rfl
  · show (List.take n (gatherIdx labels perm))[i]? = labels[perm[i]]?
    rw [List.getElem?_take_of_lt hin, gatherIdx_getElem? labels perm hmem' i,
      List.getElem?_eq_getElem hip]
    rfl

/-- Witness for `select_n_random_preserves_pairing`, at the concrete
permutation `[1, 0]`, data `[10, 20]`, labels `[true, false]` and `n = 1`. -/
theorem select_n_random_pairing_witness :
    (select_n_random [1, 0] [(10 : ℕ), 20] [true, false] 1).1.length
        = min 1 [(10 : ℕ), 20].length ∧
      (select_n_random [1, 0] [(10 : ℕ), 20] [true, false] 1).2.length
        = min 1 [(10 : ℕ), 20].length ∧
      ∀ i < (select_n_random [1, 0] [(10 : ℕ), 20] [true, false] 1).1.length,
        ∃ j < [(10 : ℕ), 20].length,
          (select_n_random [1, 0] [(10 : ℕ), 20] [true, false] 1).1[i]?
              = [(10 : ℕ), 20][j]? ∧
            (select_n_random [1, 0] [(10 : ℕ), 20] [true, false] 1).2[i]?
              = [true, false][j]? :=
  select_n_random_preserves_pairing [1, 0] [(10 : ℕ), 20] [true, false] 1
    rfl (by decide)

/-! ### Claim C7 -/

/-- Claim C7: for every positive `input_shape` and batch size `N`,
`AE(input_shape).forward` applied to a tensor of shape `[N, input_shape]`
returns a tensor of the same shape `[N, input_shape]`. -/
theorem AE_forward_preserves_shape (m : AE) (input_shape N : Nat)
    (_hpos : 0 < input_shape) (hwf : m.WF input_shape) (x : Mat)
    (hx : hasShape x N input_shape) :
    hasShape (m.forward x) N input_shape := by
  obtain ⟨hwf1, hwf2, hwf3, hwf4⟩ := hwf
  have t1 := reluBatch_shape _ N 128
    (m.encoder_hidden_layer.applyBatch_shape input_shape 128 hwf1 x N hx.1)
  have t2 := reluBatch_shape _ N 128
    (m.encoder_output_layer.applyBatch_shape 128 128 hwf2 _ N t1.1)
  have t3 := reluBatch_shape _ N 128
    (m.decoder_hidden_layer.applyBatch_shape 128 128 hwf3 _ N t2.1)
  exact reluBatch_shape _ N input_shape
    (m.decoder_output_layer.applyBatch_shape 128 input_shape hwf4 _ N t3.1)

/-- A concrete `AE` with `input_shape = 1`: every weight entry is `1` and
every bias entry is `0`, with the layer dimensions of `AE.__init__(1)`. -/
def aeSample : AE :=
  ⟨⟨List.replicate 128 [1], List.replicate 128 0⟩,
    ⟨List.replicate 128 (List.replicate 128 1), List.replicate 128 0⟩,
    ⟨List.replicate 128 (List.replicate 128 1), List.replicate 128 0⟩,
    ⟨[List.replicate 128 1], [0]⟩⟩

/-- Witness for `AE_forward_preserves_shape`, at `input_shape = 1`,
`N = 1` and input `[[5]]`. -/
theorem AE_forward_preserves_shape_witness :
    hasShape (AE.forward aeSample [[5]]) 1 1 :=
  AE_forward_preserves_shape aeSample 1 1 (by decide)
    (by refine ⟨⟨?_, ?_, ?_⟩, ⟨?_, ?_, ?_⟩, ⟨?_, ?_, ?_⟩, ⟨?_, ?_, ?_⟩⟩ <;>
      simp [aeSample, AE.WF, LinearLayer.WF, List.mem_replicate])
    [[5]] ⟨rfl, by decide⟩

/-! ### Claim C8 -/

/-- A concrete `DynamicNet` with `D_in = H = D_out = 1`: the input and
output layers are the identity, the middle layer adds `1`. -/
def dnSample : DynamicNet := ⟨⟨[[1]], [0]⟩, ⟨[[1]], [1]⟩, ⟨[[1]], [0]⟩⟩

/-- Claim C8: `DynamicNet.forward` is not a deterministic function of its
input and parameters: there are a net, an input and two draws of
`random.randint(0, 3)` for which the two evaluations differ; nevertheless,
for every draw, the output of `forward` on an input of shape `[N, D_in]`
has shape `[N, D_out]`. -/
theorem DynamicNet_forward_random_depth_shape :
    (∃ (m : DynamicNet) (x : Mat) (d1 d2 : Nat), d1 ≤ 3 ∧ d2 ≤ 3 ∧
        m.forward d1 x ≠ m.forward d2 x) ∧
      ∀ (m : DynamicNet) (dIn hDim dOut N draw : Nat), m.WF dIn hDim dOut →
        ∀ x : Mat, hasShape x N dIn → hasShape (m.forward draw x) N dOut := by
  constructor
  · refine ⟨dnSample, [[1]], 0, 1, by norm_num, by norm_num, ?_⟩
    have h0 : dnSample.forward 0 [[1]] = [[(1 : ℚ)]] := by
      simp [DynamicNet.forward, DynamicNet.middlePass, dnSample,
        LinearLayer.applyBatch, LinearLayer.applyRow, reluBatch, reluRow,
        dotRow]
    have h1 : dnSample.forward 1 [[1]] = [[(2 : ℚ)]] := by
      norm_num [DynamicNet.forward, DynamicNet.middlePass, dnSample,
        LinearLayer.applyBatch, LinearLayer.applyRow, reluBatch, reluRow,
        dotRow]
    rw [h0, h1]
    simp
  · intro m dIn hDim dOut N draw hwf x hx
    have hfin : hasShape
        (m.middlePass draw (reluBatch (m.input_linear.applyBatch x)))
        N hDim := by
      induction draw with
      | zero =>
        exact reluBatch_shape _ N hDim
          (m.input_linear.applyBatch_shape dIn hDim hwf.1 x N hx.1)
      | succ k ih =>
        exact reluBatch_shape _ N hDim
          (m.middle_linear.applyBatch_shape hDim hDim hwf.2.1 _ N ih.1)
    exact m.output_linear.applyBatch_shape hDim dOut hwf.2.2 _ N hfin.1

/-- Witness for `DynamicNet_forward_random_depth_shape`, at the concrete
net `dnSample`, draw `2` and input `[[5]]`. -/
theorem DynamicNet_forward_witness :
    hasShape (DynamicNet.forward dnSample 2 [[5]]) 1 1 :=
  DynamicNet_forward_random_depth_shape.2 dnSample 1 1 1 1 2
    (by refine ⟨⟨?_, ?_, ?_⟩, ⟨?_, ?_, ?_⟩, ⟨?_, ?_, ?_⟩⟩ <;>
      simp [dnSample, LinearLayer.WF])
    [[5]] ⟨rfl, by decide⟩

/-! ### Claim C1 -/

/-- Concrete 1×1 input `x = [[1]]` for the warm-up step. -/
def xSample : NMat 1 1 := fun _ _ => 1

/-- Concrete 1×1 target `y = [[0]]` for the warm-up step. -/
def ySample : NMat 1 1 := fun _ _ => 0

/-- Concrete 1×1 initial weight `w1 = [[1]]` for the warm-up step. -/
def w1Sample : NMat 1 1 := fun _ _ => 1

/-- Concrete 1×1 initial weight `w2 = [[1]]` for the warm-up step. -/
def w2Sample : NMat 1 1 := fun _ _ => 1

/-- Claim C1 (counterexample): the claim that gradient computation and
gradient-descent parameter updates are never performed by expressions
authored in the notebooks is false: the numpy warm-up training loop of the
autograd notebook, embedded here as `numpyWarmupStep` and built only from
the array arithmetic written in the notebook (no library autograd or
optimizer call), changes the weight `w1` at a concrete input: with
`learning_rate = 1` and all of `x`, `y` (zero), `w1`, `w2` the 1×1 matrices
above, the updated entry of `w1` is `-1`, not the original `1`. -/
theorem numpy_warmup_manual_update_counterexample :
    (@numpyWarmupStep 1 1 1 1 1 xSample ySample w1Sample w2Sample).1 0 0
        = -1 ∧
      (@numpyWarmupStep 1 1 1 1 1 xSample ySample w1Sample w2Sample).1 0 0
        ≠ w1Sample 0 0 := by
  have h : (@numpyWarmupStep 1 1 1 1 1 xSample ySample w1Sample w2Sample).1 0 0
      = -1 := by
    norm_num [numpyWarmupStep, xSample, ySample, w1Sample, w2Sample, matRelu,
      maskNonneg, Matrix.mul_apply, Fin.sum_univ_one, Matrix.sub_apply,
      Matrix.smul_apply, Matrix.transpose_apply, w1Sample]
  refine ⟨h, ?_⟩
  rw [h]
  norm_num [w1Sample]

theorem trace_transpose_mul_comm {m n : ℕ} (A B : NMat m n) :
    Matrix.trace (Matrix.transpose B * A)
      = Matrix.trace (Matrix.transpose A * B) := by
  rw [← Matrix.trace_transpose (Matrix.transpose A * B), Matrix.transpose_mul,
    Matrix.transpose_transpose]

theorem trace_square_expand {m n : ℕ} (A B : NMat m n) :
    Matrix.trace (Matrix.transpose (A + B) * (A + B))
      = Matrix.trace (Matrix.transpose A * A)
        + 2 * Matrix.trace (Matrix.transpose A * B)
        + Matrix.trace (Matrix.transpose B * B) := by
  rw [Matrix.transpose_add, Matrix.add_mul, Matrix.mul_add, Matrix.mul_add,
    Matrix.trace_add, Matrix.trace_add, Matrix.trace_add,
    trace_transpose_mul_comm A B]
  ring

/-- The numpy warm-up loop implements gradient descent in notebook code:
(i) the `w2` update of the embedded warm-up step is exactly
`w2 - learning_rate * grad_w2` for the manually computed
`grad_w2 = h_relu.T.dot(2.0 * (y_pred - y))`; and (ii) that manual
`grad_w2` is the true gradient of the loop's loss
`np.square(y_pred - y).sum()` with respect to `w2`: perturbing `w2` by any
matrix `d` changes the loss by the inner product `⟨grad_w2, d⟩` plus a term
quadratic in `d` (an exact second-order Taylor identity, so `grad_w2` is
the derivative). -/
theorem numpy_warmup_gradient_descent {N Din H Dout : ℕ} (lr : ℚ)
    (x : NMat N Din) (y : NMat N Dout) (w1 : NMat Din H)
    (w2 : NMat H Dout) :
    (numpyWarmupStep lr x y w1 w2).2 = w2 - lr • numpyGradW2 x y w1 w2 ∧
      ∀ d : NMat H Dout,
        numpyWarmupLoss x y w1 (w2 + d) =
          numpyWarmupLoss x y w1 w2 + frobInner (numpyGradW2 x y w1 w2) d +
            frobInner (matRelu (x * w1) * d) (matRelu (x * w1) * d) := by
  constructor
  · rfl
  · intro d
    have hexp : matRelu (x * w1) * (w2 + d) - y
        = (matRelu (x * w1) * w2 - y) + matRelu (x * w1) * d := by
      rw [Matrix.mul_add]
      abel
    have hgrad : Matrix.trace
          (Matrix.transpose (numpyGradW2 x y w1 w2) * d)
        = 2 * Matrix.trace
            (Matrix.transpose (matRelu (x * w1) * w2 - y)
              * (matRelu (x * w1) * d)) := by
      rw [numpyGradW2, Matrix.transpose_mul, Matrix.transpose_transpose,
        Matrix.transpose_smul, Matrix.smul_mul, Matrix.smul_mul,
        Matrix.trace_smul, Matrix.mul_assoc, smul_eq_mul]
    rw [numpyWarmupLoss, numpyWarmupLoss, sumAll_matSquare, sumAll_matSquare,
      frobInner_eq_trace, frobInner_eq_trace, frobInner_eq_trace,
      frobInner_eq_trace, hexp, trace_square_expand, hgrad]

/-- Who performs a step of a training loop: an expression authored in the
notebook's own code, or a call into a third-party library (`autograd`,
`torch.optim`). -/
inductive LoopStepBy
  | notebookCode
  | libraryCall
  deriving DecidableEq, Repr

/-- One training loop appearing in a notebook code cell, with how it
computes its gradients and how it applies its parameter update. -/
structure TrainingLoop where
  notebook : String
  model : String
  gradientsBy : LoopStepBy
  updateBy : LoopStepBy
  deriving DecidableEq, Repr

/-- All ten training loops authored by the notebooks.  The two warm-up
loops of the autograd notebook compute gradients by hand (`grad_w2 =
h_relu.T.dot(grad_y_pred)` etc.) and update weights by hand
(`w1 -= learning_rate * grad_w1`); the autograd notebook's third loop uses
`loss.backward()` but still updates `w1 -= learning_rate * w1.grad` under
`torch.no_grad()` ("Parameters Update (still manual)"), as does the first
`nn.Sequential` loop of the nn notebook (`param -= learning_rate *
param.grad`); the remaining six loops call `optimizer.step()` on a
`torch.optim` optimizer. -/
def notebookTrainingLoops : List TrainingLoop :=
  [ ⟨"dl_intro/2 Torch AutoGrad.ipynb", "numpy warm-up MLP",
      LoopStepBy.notebookCode, LoopStepBy.notebookCode⟩,
    ⟨"dl_intro/2 Torch AutoGrad.ipynb", "torch.Tensor warm-up MLP",
      LoopStepBy.notebookCode, LoopStepBy.notebookCode⟩,
    ⟨"dl_intro/2 Torch AutoGrad.ipynb", "autograd MLP",
      LoopStepBy.libraryCall, LoopStepBy.notebookCode⟩,
    ⟨"dl_intro/3 Torch NN.ipynb", "nn.Sequential MLP",
      LoopStepBy.libraryCall, LoopStepBy.notebookCode⟩,
    ⟨"dl_intro/3 Torch NN.ipynb", "nn.Sequential MLP with Adam",
      LoopStepBy.libraryCall, LoopStepBy.libraryCall⟩,
    ⟨"dl_intro/3 Torch NN.ipynb", "TwoLayerNet with SGD",
      LoopStepBy.libraryCall, LoopStepBy.libraryCall⟩,
    ⟨"dl_intro/3 Torch NN.ipynb", "TwoLayerNet (functional relu) with SGD",
      LoopStepBy.libraryCall, LoopStepBy.libraryCall⟩,
    ⟨"dl_intro/3 Torch NN.ipynb", "DynamicNet with SGD and momentum",
      LoopStepBy.libraryCall, LoopStepBy.libraryCall⟩,
    ⟨"unnamed/part_001", "AE with Adam",
      LoopStepBy.libraryCall, LoopStepBy.libraryCall⟩,
    ⟨"unnamed/part_003", "Net with SGD",
      LoopStepBy.libraryCall, LoopStepBy.libraryCall⟩ ]

/-- Claim C1 (amended): automatic differentiation is implemented by the
notebooks' own code only in the two warm-up loops of the autograd
notebook; every other training loop obtains its gradients from the
library's `loss.backward()`.  Gradient-descent parameter updates, however,
are authored in notebook code in four of the ten training loops shown —
the two warm-up loops, the autograd-based loop of the autograd notebook
(`w1 -= learning_rate * w1.grad`), and the first `nn.Sequential` loop of
the nn notebook (`param -= learning_rate * param.grad`) — while the
remaining six delegate the update to `torch.optim`'s `optimizer.step()`.
In the warm-up loops the manually computed `grad_w2` is the exact gradient
of the loss (an exact second-order Taylor identity) and the update is
exactly `w2 - learning_rate * grad_w2`. -/
theorem gradient_and_update_authorship :
    (notebookTrainingLoops.filter
          (fun L => L.gradientsBy == LoopStepBy.notebookCode)).map
        (fun L => L.model)
      = ["numpy warm-up MLP", "torch.Tensor warm-up MLP"] ∧
      (notebookTrainingLoops.filter
            (fun L => L.updateBy == LoopStepBy.notebookCode)).map
          (fun L => L.model)
        = ["numpy warm-up MLP", "torch.Tensor warm-up MLP", "autograd MLP",
            "nn.Sequential MLP"] ∧
      (notebookTrainingLoops.filter
          (fun L => L.updateBy == LoopStepBy.libraryCall)).length = 6 ∧
      ∀ (N Din H Dout : ℕ) (lr : ℚ) (x : NMat N Din) (y : NMat N Dout)
          (w1 : NMat Din H) (w2 : NMat H Dout),
        (numpyWarmupStep lr x y w1 w2).2 = w2 - lr • numpyGradW2 x y w1 w2 ∧
          ∀ d : NMat H Dout,
            numpyWarmupLoss x y w1 (w2 + d) =
              numpyWarmupLoss x y w1 w2 + frobInner (numpyGradW2 x y w1 w2) d
                + frobInner (matRelu (x * w1) * d) (matRelu (x * w1) * d) := by
  refine ⟨by decide, by decide, by decide, ?_⟩
  intro N Din H Dout lr x y w1 w2
  exact numpy_warmup_gradient_descent lr x y w1 w2
